import Mathlib

/-!
Verification of the serpent-web generic SQL repository, manager façade,
token utilities, and engine factory, as a shallow embedding in Lean 4.

Each definition is transcribed from the repository's Python source
(`serpent_web/data/sql/base_sql_repository.py`, `domain/base_manager.py`,
`core/authentication/oauth20/token_util.py`, `data/sql/sql_context.py`).
Python machine-level concerns are modelled explicitly: fallible code
returns `Except PyErr`, the ORM session is an explicit `Session` state
record threaded through every operation, and Python's floor division
`//` is `Int.fdiv`.
-/

/-- A Python attribute value, as stored on a record or used in a filter. -/
inductive Value where
  | noneV : Value
  | str : String → Value
  | int : Int → Value
  | bool : Bool → Value
deriving DecidableEq, Repr

/-- Render a value the way Python str() renders it inside an f-string. -/
def Value.toStr : Value → String
  | .noneV => "None"
  | .str s => s
  | .int n => toString n
  | .bool b => if b then "True" else "False"

/-- Python exceptions raised by the repository layer. -/
inductive PyErr where
  | typeError (msg : String)
  | valueError (msg : String)
  | attributeError (msg : String)
  | indexError
deriving DecidableEq, Repr

/-- A record instance: its attribute assignment (column name to value). -/
def Model := List (String × Value)
deriving DecidableEq, Repr

/-- Attribute access on a record instance (rows conform to their schema;
an absent attribute reads as Python None). -/
def getattrV (r : Model) (k : String) : Value :=
  match r.lookup k with
  | some v => v
  | none => Value.noneV

/-- The ORM session state: visible rows for the repository's record type,
plus counters for each kind of database interaction the source performs
(statement executions, add(), flush(), commit(), refresh() calls). -/
structure Session where
  rows : List Model
  executed : Nat
  adds : Nat
  flushes : Nat
  commits : Nat
  refreshes : Nat
deriving DecidableEq, Repr

def Session.exec (s : Session) : Session := { s with executed := s.executed + 1 }

def Session.addModel (s : Session) (m : Model) : Session :=
  { s with rows := s.rows ++ [m], adds := s.adds + 1 }

def Session.flush (s : Session) : Session := { s with flushes := s.flushes + 1 }

def Session.commit (s : Session) : Session := { s with commits := s.commits + 1 }

def Session.refresh (s : Session) : Session := { s with refreshes := s.refreshes + 1 }

/-- SQLAlchemy column type of a mapped column (only the string/text
distinction matters to the source's search validation). -/
inductive ColType where
  | stringT
  | textT
  | intT
  | uuidT
  | dateT
deriving DecidableEq, Repr

/-- `isinstance(column.type, (String, Text))` from the search validation. -/
def isTextual : ColType → Bool
  | .stringT => true
  | .textT => true
  | _ => false

/-- A class attribute of a mapped record type: either a mapped column or a
relationship to another record type (carried inline: target model name and
its attribute list). -/
inductive Attr where
  | column : ColType → Attr
  | rel : String → List (String × Attr) → Attr

/-- Python hasattr on the record type. -/
def hasattrB (attrs : List (String × Attr)) (k : String) : Bool :=
  (attrs.lookup k).isSome

/-- Helper for `pySplit`: accumulate characters until the separator. -/
def splitCharAux (sep : Char) : List Char → List Char → List String
  | [], acc => [String.mk acc.reverse]
  | c :: cs, acc =>
    if c = sep then String.mk acc.reverse :: splitCharAux sep cs []
    else splitCharAux sep cs (c :: acc)

/-- Python `s.split(sep)` for a single-character separator (e.g.
`field_name.split('.')`): `"a.b"` gives `["a", "b"]`, `""` gives `[""]`. -/
def pySplit (s : String) (sep : Char) : List String :=
  splitCharAux sep s.toList []

/-- Python `s.startswith(c)` for a single character. -/
def pyStartsWith (s : String) (c : Char) : Bool :=
  match s.toList with
  | [] => false
  | c0 :: _ => c0 = c

/-- Python `s[1:]`. -/
def pyTail (s : String) : String := String.mk (s.toList.drop 1)

/-- A terminal column reached by resolving a dotted field path: the owning
model, attribute name and column type. -/
structure ResolvedColumn where
  model : String
  attr : String
  ty : ColType
deriving DecidableEq, Repr

/-- `_get_column_and_joins(model, field_name)`: split the path on `.` and
walk the segments; a relationship segment records a required join (the
relationship attribute, identified as `owner.attrName`) and moves to the
related type; a plain attribute segment is the terminal column; a missing
segment or a path ending without a column raises AttributeError. -/
def _get_column_and_joins (mn : String) (attrs : List (String × Attr))
    (field_name : String) : Except PyErr (ResolvedColumn × List String) :=
  go (pySplit field_name '.') mn attrs [] none
where
  go : List String → String → List (String × Attr) → List String →
      Option ResolvedColumn → Except PyErr (ResolvedColumn × List String)
  | [], _, _, joins, col =>
    match col with
    | some c => .ok (c, joins)
    | none => .error (.attributeError
        ("Field '" ++ field_name ++ "' does not correspond to a valid column"))
  | part :: rest, curName, curAttrs, joins, col =>
    match curAttrs.lookup part with
    | some (Attr.rel tgtName tgtAttrs) =>
        go rest tgtName tgtAttrs (joins ++ [curName ++ "." ++ part]) col
    | some (Attr.column ty) =>
        go rest curName curAttrs joins (some ⟨curName, part, ty⟩)
    | none => .error (.attributeError
        ("'" ++ curName ++ "' has no attribute '" ++ part ++ "'"))

/-- One search condition: `column.ilike('%' + search_text + '%')`. -/
structure SearchCond where
  column : ResolvedColumn
  text : String
deriving DecidableEq, Repr

/-- One ordering criterion: a column and its direction. -/
structure OrderCriterion where
  column : ResolvedColumn
  descending : Bool
deriving DecidableEq, Repr

/-- The unexecuted Select statement produced by
`_build_base_paginated_get_stmt`: the retained filter conditions, the
search conditions, the joins applied by the search block and by the order
block (in application order; the statement's full join sequence is
`searchJoins ++ orderJoins`), and the ordering criteria. -/
structure Stmt where
  modelName : String
  filters : List (String × Value)
  searchConds : List SearchCond
  searchJoins : List String
  orderJoins : List String
  orderCriteria : List OrderCriterion
deriving DecidableEq, Repr

/-- The inner join loop shared by the search and order blocks:
`for join in joins: if join not in joins_applied: stmt = stmt.join(join);
joins_applied.add(join)`. Returns the joins emitted onto the statement and
the updated applied set. -/
def applyJoins : List String → List String → List String →
    List String × List String
  | [], emitted, applied => (emitted, applied)
  | j :: js, emitted, applied =>
    if j ∈ applied then applyJoins js emitted applied
    else applyJoins js (emitted ++ [j]) (applied ++ [j])

/-- The search-block loop of `_build_base_paginated_get_stmt`: resolve each
search field, require a string/text terminal column (else TypeError),
collect the ilike condition, and apply the field's joins through the
block-local `joins_applied` set. -/
def searchLoop (mn : String) (attrs : List (String × Attr)) (stext : String) :
    List String → List SearchCond → List String → List String →
    Except PyErr (List SearchCond × List String)
  | [], conds, emitted, _ => .ok (conds, emitted)
  | f :: fs, conds, emitted, applied =>
    match _get_column_and_joins mn attrs f with
    | .error e => .error e
    | .ok (col, joins) =>
      if isTextual col.ty then
        match applyJoins joins emitted applied with
        | (emitted2, applied2) =>
          searchLoop mn attrs stext fs (conds ++ [⟨col, stext⟩]) emitted2 applied2
      else
        .error (.typeError ("Field '" ++ f ++ "' is not a string or text column"))

/-- The order-block loop of `_build_base_paginated_get_stmt`: strip an
optional leading `-` (descending), resolve the field, apply its joins
through a fresh block-local `joins_applied` set, and collect the
ordering criterion. -/
def orderLoop (mn : String) (attrs : List (String × Attr)) :
    List String → List OrderCriterion → List String → List String →
    Except PyErr (List OrderCriterion × List String)
  | [], crits, emitted, _ => .ok (crits, emitted)
  | f :: fs, crits, emitted, applied =>
    let descending := pyStartsWith f '-'
    let fname := if descending then pyTail f else f
    match _get_column_and_joins mn attrs fname with
    | .error e => .error e
    | .ok (col, joins) =>
      match applyJoins joins emitted applied with
      | (emitted2, applied2) =>
        orderLoop mn attrs fs (crits ++ [⟨col, descending⟩]) emitted2 applied2

/-- Python truthiness of an optional string (None and the empty string are
falsy). -/
def truthyStr : Option String → Bool
  | none => false
  | some s => !(s == "")

/-- Python truthiness of an optional list (None and the empty list are
falsy). -/
def truthyList : Option (List String) → Bool
  | none => false
  | some l => !l.isEmpty

/-- `_build_base_paginated_get_stmt(query_filter, order_by, search_fields,
search_text)`: retain filter pairs whose key passes `hasattr` on the model,
run the search block when `search_text and search_fields` is truthy, then
the order block when `order_by` is truthy (each block with its own fresh
`joins_applied` set). -/
def _build_base_paginated_get_stmt (mn : String) (attrs : List (String × Attr))
    (query_filter : List (String × Value)) (order_by : Option (List String))
    (search_fields : Option (List String)) (search_text : Option String) :
    Except PyErr Stmt :=
  let filters := query_filter.filter (fun kv => hasattrB attrs kv.1)
  let searchRes :=
    if truthyStr search_text && truthyList search_fields then
      searchLoop mn attrs ((search_text.getD "")) ((search_fields.getD [])) [] [] []
    else .ok ([], [])
  match searchRes with
  | .error e => .error e
  | .ok (conds, sjoins) =>
    let orderRes :=
      if truthyList order_by then orderLoop mn attrs (order_by.getD []) [] [] []
      else .ok ([], [])
    match orderRes with
    | .error e => .error e
    | .ok (crits, ojoins) => .ok ⟨mn, filters, conds, sjoins, ojoins, crits⟩

/-- `_calculate_pagination(total, skip, limit)`. Python's floor division
`//` is `Int.fdiv`; the `limit == 0` inputs on which Python would raise
ZeroDivisionError are excluded by hypothesis where this is used. -/
def _calculate_pagination (total : Int) (skip limit : Option Int) :
    Option Int × Option Int :=
  match limit with
  | none => (none, none)
  | some l =>
    let s := skip.getD 0
    let next_page := if s + l < total then some (Int.fdiv (s + l) l + 1) else none
    let previous_page :=
      if 0 < s then some (max (Int.fdiv (s - l) l + 1) 1) else none
    (next_page, previous_page)

/-- The repository's paginated result shape (`data_schemas.PaginatedList`). -/
structure PaginatedList where
  total : Int
  skip : Int
  limit : Int
  data : List Model
  next : Option Int
  previous : Option Int
deriving DecidableEq, Repr

/-- Case-insensitive substring test, the row-level meaning of
`column.ilike('%' + text + '%')` (the SQL engine's own matching is out of
scope; only its substring/case-insensitive contract is modelled). -/
def strContainsCI (hay needle : String) : Bool :=
  if needle == "" then true
  else !(((hay.toLower).splitOn needle.toLower).length == 1)

/-- Whether a row satisfies one search condition. -/
def condMatches (r : Model) (c : SearchCond) : Bool :=
  match getattrV r c.column.attr with
  | Value.str s => strContainsCI s c.text
  | _ => false

/-- Whether a row satisfies a built statement's conditions: every filter
equality, AND (when search conditions exist) the OR of the search
conditions. -/
def rowMatches (st : Stmt) (r : Model) : Bool :=
  st.filters.all (fun kv => getattrV r kv.1 == kv.2) &&
  (st.searchConds.isEmpty || st.searchConds.any (condMatches r))

/-- A Python object passed where keyword arguments are unpacked: either a
mapping or a non-mapping value. -/
inductive PyObj where
  | dict : List (String × Value) → PyObj
  | val : Value → PyObj
deriving DecidableEq, Repr

/-- Python `f(**x)`: succeeds on a mapping, raises TypeError otherwise
(this is where `exists(model.id)` with a raw id blows up). -/
def kwargsAsDict : PyObj → Except PyErr (List (String × Value))
  | .dict kvs => .ok kvs
  | .val v => .error (.typeError
      ("filter_by() argument after ** must be a mapping, not " ++ Value.toStr v))

namespace BaseSqlRepository

/-- `exists(query_filter)`: select filtered by equality on every pair of the
mapping, execute, and test whether any row came back. The `**` unpack of
the argument happens before the statement executes. -/
def «exists» (arg : PyObj) (s : Session) : Except PyErr Bool × Session :=
  match kwargsAsDict arg with
  | .error e => (.error e, s)
  | .ok qf =>
    (.ok (s.rows.any (fun r => qf.all (fun kv => getattrV r kv.1 == kv.2))), s.exec)

/-- `exists_async(query_filter)`: identical to the synchronous variant
modulo awaiting the execution. -/
def exists_async (arg : PyObj) (s : Session) : Except PyErr Bool × Session :=
  match kwargsAsDict arg with
  | .error e => (.error e, s)
  | .ok qf =>
    (.ok (s.rows.any (fun r => qf.all (fun kv => getattrV r kv.1 == kv.2))), s.exec)

/-- `get_by_id(id)`: primary-key lookup; absence returns None. -/
def get_by_id (id : Value) (s : Session) : Option Model × Session :=
  (s.rows.find? (fun r => getattrV r "id" == id), s.exec)

/-- `get_by_id_async(id)`. -/
def get_by_id_async (id : Value) (s : Session) : Option Model × Session :=
  (s.rows.find? (fun r => getattrV r "id" == id), s.exec)

/-- `get_models_by_ids(ids)`: rows whose id is in the given list. -/
def get_models_by_ids (ids : List Value) (s : Session) : List Model × Session :=
  (s.rows.filter (fun r => ids.contains (getattrV r "id")), s.exec)

/-- `get_models_by_ids_async(ids)`. -/
def get_models_by_ids_async (ids : List Value) (s : Session) : List Model × Session :=
  (s.rows.filter (fun r => ids.contains (getattrV r "id")), s.exec)

/-- `get(query_filter, skip, limit)`: apply an equality condition for each
filter key that passes `hasattr` on the model (unknown keys are skipped by
that guard), then offset and limit. -/
def get (attrs : List (String × Attr)) (query_filter : List (String × Value))
    (skip limit : Int) (s : Session) : Except PyErr (List Model) × Session :=
  let kept := query_filter.filter (fun kv => hasattrB attrs kv.1)
  let rows := s.rows.filter (fun r => kept.all (fun kv => getattrV r kv.1 == kv.2))
  (.ok ((rows.drop skip.toNat).take limit.toNat), s.exec)

/-- `get_async(query_filter, skip, limit)`: same dynamic filtering with the
same `hasattr` guard, built on a select statement. -/
def get_async (attrs : List (String × Attr)) (query_filter : List (String × Value))
    (skip limit : Int) (s : Session) : Except PyErr (List Model) × Session :=
  let kept := query_filter.filter (fun kv => hasattrB attrs kv.1)
  let rows := s.rows.filter (fun r => kept.all (fun kv => getattrV r kv.1 == kv.2))
  (.ok ((rows.drop skip.toNat).take limit.toNat), s.exec)

/-- `get_paginated(query_filter, skip, limit, order_by, search_fields,
search_text)`: build the base statement (errors propagate before anything
executes), execute the count statement, apply offset/limit, execute the
page statement, and assemble the result with `_calculate_pagination`.
Row ordering under ORDER BY is the SQL engine's concern and is not
modelled; the page is taken in storage order. -/
def get_paginated (mn : String) (attrs : List (String × Attr))
    (query_filter : List (String × Value)) (skip limit : Option Int)
    (order_by search_fields : Option (List String)) (search_text : Option String)
    (s : Session) : Except PyErr PaginatedList × Session :=
  match _build_base_paginated_get_stmt mn attrs query_filter order_by
      search_fields search_text with
  | .error e => (.error e, s)
  | .ok stmt =>
    let s1 := s.exec
    let matching := s.rows.filter (rowMatches stmt)
    let total : Int := matching.length
    let afterSkip := match skip with
      | none => matching
      | some k => matching.drop k.toNat
    let paged := match limit with
      | none => afterSkip
      | some l => afterSkip.take l.toNat
    let s2 := s1.exec
    let pg := _calculate_pagination total skip limit
    (.ok { total := total, skip := skip.getD 0, limit := limit.getD total,
           data := paged, next := pg.1, previous := pg.2 }, s2)

/-- `get_paginated_async(...)`: identical pipeline to the synchronous
variant (the source differs only in awaiting and in `scalar_one()` for the
count). -/
def get_paginated_async (mn : String) (attrs : List (String × Attr))
    (query_filter : List (String × Value)) (skip limit : Option Int)
    (order_by search_fields : Option (List String)) (search_text : Option String)
    (s : Session) : Except PyErr PaginatedList × Session :=
  match _build_base_paginated_get_stmt mn attrs query_filter order_by
      search_fields search_text with
  | .error e => (.error e, s)
  | .ok stmt =>
    let s1 := s.exec
    let matching := s.rows.filter (rowMatches stmt)
    let total : Int := matching.length
    let afterSkip := match skip with
      | none => matching
      | some k => matching.drop k.toNat
    let paged := match limit with
      | none => afterSkip
      | some l => afterSkip.take l.toNat
    let s2 := s1.exec
    let pg := _calculate_pagination total skip limit
    (.ok { total := total, skip := skip.getD 0, limit := limit.getD total,
           data := paged, next := pg.1, previous := pg.2 }, s2)

/-- `_handle_defer_commit_single_model(model, defer_commit)`: flush when
deferred, otherwise commit and refresh. -/
def _handle_defer_commit_single_model (defer_commit : Bool) (s : Session) : Session :=
  if defer_commit then s.flush else (s.commit).refresh

/-- `create(model, defer_commit)`: add, then flush or commit+refresh. -/
def create (m : Model) (defer_commit : Bool) (s : Session) : Model × Session :=
  (m, _handle_defer_commit_single_model defer_commit (s.addModel m))

/-- `create_async(model, defer_commit)`. -/
def create_async (m : Model) (defer_commit : Bool) (s : Session) : Model × Session :=
  (m, _handle_defer_commit_single_model defer_commit (s.addModel m))

/-- `update(model, defer_commit)`: requires `model.id`; then calls
`self.exists(model.id)` — passing the raw id where `exists` `**`-unpacks a
mapping — and on success stages/commits, else raises ValueError not-found. -/
def update (mn : String) (m : Model) (defer_commit : Bool) (s : Session) :
    Except PyErr Model × Session :=
  if getattrV m "id" == Value.noneV then
    (.error (.valueError
      ("The id of the existing model (" ++ mn ++ ") is required for update action")), s)
  else
    match «exists» (PyObj.val (getattrV m "id")) s with
    | (.error e, s1) => (.error e, s1)
    | (.ok b, s1) =>
      if b then
        (.ok m, _handle_defer_commit_single_model defer_commit (s1.addModel m))
      else
        (.error (.valueError
          ("Model of type " ++ mn ++ " with id: " ++ Value.toStr (getattrV m "id")
            ++ " not found")), s1)

/-- `update_async(model, defer_commit)`: as `update`, but the existence
check passes the mapping `{"id": model.id}` to `exists_async`. -/
def update_async (mn : String) (m : Model) (defer_commit : Bool) (s : Session) :
    Except PyErr Model × Session :=
  if getattrV m "id" == Value.noneV then
    (.error (.valueError
      ("The id of the existing model (" ++ mn ++ ") is required for update action")), s)
  else
    match exists_async (PyObj.dict [("id", getattrV m "id")]) s with
    | (.error e, s1) => (.error e, s1)
    | (.ok b, s1) =>
      if b then
        (.ok m, _handle_defer_commit_single_model defer_commit (s1.addModel m))
      else
        (.error (.valueError
          ("Model of type " ++ mn ++ " with id: " ++ Value.toStr (getattrV m "id")
            ++ " not found")), s1)

/-- `delete(id, defer_commit)`: primary-key lookup; remove the row when
present; commit unless deferred; never raises. -/
def delete (id : Value) (defer_commit : Bool) (s : Session) :
    Except PyErr Unit × Session :=
  let s1 := s.exec
  let found := s1.rows.find? (fun r => getattrV r "id" == id)
  let s2 := match found with
    | some _ => { s1 with rows := s1.rows.eraseP (fun r => getattrV r "id" == id) }
    | none => s1
  (.ok (), if defer_commit then s2 else s2.commit)

/-- `delete_async(id, defer_commit)`: identical behaviour via
`await self._db.get` / `await self._db.delete`. -/
def delete_async (id : Value) (defer_commit : Bool) (s : Session) :
    Except PyErr Unit × Session :=
  let s1 := s.exec
  let found := s1.rows.find? (fun r => getattrV r "id" == id)
  let s2 := match found with
    | some _ => { s1 with rows := s1.rows.eraseP (fun r => getattrV r "id" == id) }
    | none => s1
  (.ok (), if defer_commit then s2 else s2.commit)

end BaseSqlRepository

/-- The bundle of operations a repository instance exposes, as consumed by
the manager (`BaseManager.__init__` takes a `BaseSqlRepository`). -/
structure RepositoryOps where
  «exists» : PyObj → Session → Except PyErr Bool × Session
  exists_async : PyObj → Session → Except PyErr Bool × Session
  get_by_id : Value → Session → Option Model × Session
  get_by_id_async : Value → Session → Option Model × Session
  get_models_by_ids : List Value → Session → List Model × Session
  get_models_by_ids_async : List Value → Session → List Model × Session
  get : List (String × Value) → Int → Int → Session → Except PyErr (List Model) × Session
  get_async : List (String × Value) → Int → Int → Session → Except PyErr (List Model) × Session
  get_paginated : List (String × Value) → Option Int → Option Int →
    Option (List String) → Option (List String) → Option String → Session →
    Except PyErr PaginatedList × Session
  get_paginated_async : List (String × Value) → Option Int → Option Int →
    Option (List String) → Option (List String) → Option String → Session →
    Except PyErr PaginatedList × Session
  create : Model → Bool → Session → Model × Session
  create_async : Model → Bool → Session → Model × Session
  update : Model → Bool → Session → Except PyErr Model × Session
  update_async : Model → Bool → Session → Except PyErr Model × Session
  delete : Value → Bool → Session → Except PyErr Unit × Session
  delete_async : Value → Bool → Session → Except PyErr Unit × Session

/-- A concrete `BaseSqlRepository` instance for a record type, bundling the
embedded operations. -/
def BaseSqlRepository.ops (mn : String) (attrs : List (String × Attr)) :
    RepositoryOps where
  «exists» := BaseSqlRepository.«exists»
  exists_async := BaseSqlRepository.exists_async
  get_by_id := BaseSqlRepository.get_by_id
  get_by_id_async := BaseSqlRepository.get_by_id_async
  get_models_by_ids := BaseSqlRepository.get_models_by_ids
  get_models_by_ids_async := BaseSqlRepository.get_models_by_ids_async
  get := BaseSqlRepository.get attrs
  get_async := BaseSqlRepository.get_async attrs
  get_paginated := BaseSqlRepository.get_paginated mn attrs
  get_paginated_async := BaseSqlRepository.get_paginated_async mn attrs
  create := BaseSqlRepository.create
  create_async := BaseSqlRepository.create_async
  update := BaseSqlRepository.update mn
  update_async := BaseSqlRepository.update_async mn
  delete := BaseSqlRepository.delete
  delete_async := BaseSqlRepository.delete_async

/-- `BaseManager`: holds the repository passed to its constructor. -/
structure BaseManager where
  _repository : RepositoryOps

namespace BaseManager

/-- `BaseManager.get_by_id`: `return self._repository.get_by_id(id)`. -/
def get_by_id (self : BaseManager) (id : Value) (s : Session) :
    Option Model × Session :=
  self._repository.get_by_id id s

/-- `BaseManager.get_by_id_async`. -/
def get_by_id_async (self : BaseManager) (id : Value) (s : Session) :
    Option Model × Session :=
  self._repository.get_by_id_async id s

/-- `BaseManager.create`: `return self._repository.create(model, defer_commit)`. -/
def create (self : BaseManager) (m : Model) (defer_commit : Bool) (s : Session) :
    Model × Session :=
  self._repository.create m defer_commit s

/-- `BaseManager.create_async`. -/
def create_async (self : BaseManager) (m : Model) (defer_commit : Bool) (s : Session) :
    Model × Session :=
  self._repository.create_async m defer_commit s

/-- `BaseManager.update`: `return self._repository.update(model, defer_commit)`. -/
def update (self : BaseManager) (m : Model) (defer_commit : Bool) (s : Session) :
    Except PyErr Model × Session :=
  self._repository.update m defer_commit s

/-- `BaseManager.update_async`. -/
def update_async (self : BaseManager) (m : Model) (defer_commit : Bool) (s : Session) :
    Except PyErr Model × Session :=
  self._repository.update_async m defer_commit s

/-- `BaseManager.delete`: `self._repository.delete(id, defer_commit)`. -/
def delete (self : BaseManager) (id : Value) (defer_commit : Bool) (s : Session) :
    Except PyErr Unit × Session :=
  self._repository.delete id defer_commit s

/-- `BaseManager.delete_async`. -/
def delete_async (self : BaseManager) (id : Value) (defer_commit : Bool) (s : Session) :
    Except PyErr Unit × Session :=
  self._repository.delete_async id defer_commit s

/-- `BaseManager.get`: `return self._repository.get(query_filter, skip, limit)`. -/
def get (self : BaseManager) (query_filter : List (String × Value))
    (skip limit : Int) (s : Session) : Except PyErr (List Model) × Session :=
  self._repository.get query_filter skip limit s

/-- `BaseManager.get_async`. -/
def get_async (self : BaseManager) (query_filter : List (String × Value))
    (skip limit : Int) (s : Session) : Except PyErr (List Model) × Session :=
  self._repository.get_async query_filter skip limit s

/-- `BaseManager.get_models_by_ids`: `return self._repository.get_models_by_ids(ids)`. -/
def get_models_by_ids (self : BaseManager) (ids : List Value) (s : Session) :
    List Model × Session :=
  self._repository.get_models_by_ids ids s

/-- `BaseManager.get_models_by_ids_async`. -/
def get_models_by_ids_async (self : BaseManager) (ids : List Value) (s : Session) :
    List Model × Session :=
  self._repository.get_models_by_ids_async ids s

/-- `BaseManager.get_paginated`: passes all six arguments through. -/
def get_paginated (self : BaseManager) (query_filter : List (String × Value))
    (skip limit : Option Int) (order_by search_fields : Option (List String))
    (search_text : Option String) (s : Session) :
    Except PyErr PaginatedList × Session :=
  self._repository.get_paginated query_filter skip limit order_by search_fields
    search_text s

/-- `BaseManager.get_paginated_async`. -/
def get_paginated_async (self : BaseManager) (query_filter : List (String × Value))
    (skip limit : Option Int) (order_by search_fields : Option (List String))
    (search_text : Option String) (s : Session) :
    Except PyErr PaginatedList × Session :=
  self._repository.get_paginated_async query_filter skip limit order_by
    search_fields search_text s

end BaseManager

/-- The public methods defined by the `BaseManager` class in
`domain/base_manager.py`, in source order (`BaseSqlManager` adds none). -/
def baseManagerMethodNames : List String :=
  ["get_by_id", "get_by_id_async", "create", "create_async", "update",
   "update_async", "delete", "delete_async", "get", "get_async",
   "get_models_by_ids", "get_models_by_ids_async", "get_paginated",
   "get_paginated_async"]

/-- The public methods defined by the `BaseSqlRepository` class in
`data/sql/base_sql_repository.py`, in source order. -/
def baseSqlRepositoryMethodNames : List String :=
  ["exists", "exists_async", "get_by_id", "get_by_id_async",
   "get_models_by_ids", "get_models_by_ids_async", "get", "get_async",
   "get_paginated", "get_paginated_async", "create", "create_async",
   "update", "update_async", "delete", "delete_async"]

/-- A JSON value, the shape of a decoded JWT payload. -/
inductive Json where
  | null : Json
  | str : String → Json
  | num : Int → Json
  | obj : List (String × Json) → Json

/-- Modelled from the spec: the external dotted-path query language
(`jsonpath_ng.parse(path).find(payload)`) restricted to dotted field
paths — descend through object keys; an unmatched segment yields no
matches. Only the match list's emptiness and first value are consumed by
the source. -/
def jsonpathFind : List String → Json → List Json
  | [], j => [j]
  | k :: ks, .obj kvs =>
    match kvs.lookup k with
    | some v => jsonpathFind ks v
    | none => []
  | _ :: _, _ => []

/-- `get_claim_from_payload(payload, claim_json_path)`: parse the path,
find the matches, and return `matches[0].value` — a Python list index that
raises IndexError when the match list is empty. -/
def get_claim_from_payload (payload : Json) (claim_json_path : String) :
    Except PyErr Json :=
  let ms := jsonpathFind (pySplit claim_json_path '.') payload
  match ms with
  | [] => .error .indexError
  | v :: _ => .ok v

/-- Exceptions in the token-utility layer: the jose library's JWTError and
starlette's HTTPException (status code and detail). -/
inductive AuthExc where
  | jwtError
  | httpException (status : Nat) (detail : String)
deriving DecidableEq, Repr

/-- `isinstance(e, jwt.JWTError)` for the except-clause dispatch. -/
def AuthExc.isJwtError : AuthExc → Bool
  | .jwtError => true
  | _ => false

/-- A token abstracted by what `jwt.get_unverified_header` does with it:
the library raises JWTError on a malformed header, otherwise yields the
header's optional `kid` entry. -/
inductive TokenHeader where
  | malformed
  | withKid : Option String → TokenHeader
deriving DecidableEq, Repr

/-- The try-block body of `get_public_key`: read the unverified header,
take its `kid`, look it up in the cached key set, raising
HTTPException 403 when `kid not in keys`, else return `keys.get(kid)`. -/
def get_public_key_body (token : TokenHeader) (keys : List (String × String)) :
    Except AuthExc String :=
  match token with
  | .malformed => .error .jwtError
  | .withKid kid =>
    match kid with
    | none => .error (.httpException 403 "Public key not found for the given token.")
    | some k =>
      match keys.lookup k with
      | none => .error (.httpException 403 "Public key not found for the given token.")
      | some key => .ok key

/-- `get_public_key(token, jwks_url)` with the cached key set in hand: the
body runs under `except jwt.JWTError` (to 403 "Invalid token headers.")
followed by `except Exception` (to 500 "Error processing token."); any
exception raised in the body that is not a JWTError — including the
body's own HTTPException — is caught by the second clause. -/
def get_public_key (token : TokenHeader) (keys : List (String × String)) :
    Except AuthExc String :=
  match get_public_key_body token keys with
  | .ok key => .ok key
  | .error e =>
    if e.isJwtError then .error (.httpException 403 "Invalid token headers.")
    else .error (.httpException 500 "Error processing token.")

/-- The database-kind selector (`sql_database_type.DatabaseType`). -/
inductive DatabaseType where
  | SQLITE
  | DATABRICKS
  | POSTGRES
  | AZURESQL
deriving DecidableEq, Repr

/-- Python `f"{database_type}"` on the enum member. -/
def DatabaseType.toStr : DatabaseType → String
  | .SQLITE => "DatabaseType.SQLITE"
  | .DATABRICKS => "DatabaseType.DATABRICKS"
  | .POSTGRES => "DatabaseType.POSTGRES"
  | .AZURESQL => "DatabaseType.AZURESQL"

/-- Which creator classmethod a strategy map entry designates. -/
inductive EngineKind where
  | sqliteSync
  | sqlSync
  | sqliteAsync
  | sqlAsync
deriving DecidableEq, Repr

/-- An engine instance: a creation serial number (distinct per created
engine), the creator that made it, and its URL. -/
structure Engine where
  serial : Nat
  kind : EngineKind
  url : String
deriving DecidableEq, Repr

/-- `EngineFactory._engine_instances` plus a serial counter for fresh
engine identities. -/
structure FactoryState where
  engine_instances : List (String × Engine)
  nextSerial : Nat
deriving DecidableEq, Repr

/-- Modelled stand-in for the external `xxhash.xxh64(url).hexdigest()`: an
unspecified deterministic digest of the URL (only determinism is used). -/
def xxh64_hexdigest (s : String) : String :=
  toString (s.toList.foldl (fun a c => a * 31 + c.toNat) 7)

/-- `EngineFactory._engine_strategy_map(is_async)`: the creator chosen for
each database type in each mode (every enum member is mapped in both). -/
def _engine_strategy_map (is_async : Bool) (t : DatabaseType) : Option EngineKind :=
  if is_async then
    match t with
    | .SQLITE => some .sqliteAsync
    | .DATABRICKS => some .sqlAsync
    | .POSTGRES => some .sqlAsync
    | .AZURESQL => some .sqlAsync
  else
    match t with
    | .SQLITE => some .sqliteSync
    | .DATABRICKS => some .sqlSync
    | .POSTGRES => some .sqlSync
    | .AZURESQL => some .sqlSync

/-- The cache key `f"{database_type}-{is_async}-{database_name}"`, with
`database_name` defaulted to the URL digest when not provided. -/
def engineKey (t : DatabaseType) (url : String) (name : Option String)
    (is_async : Bool) : String :=
  let database_name := name.getD (xxh64_hexdigest url)
  t.toStr ++ "-" ++ (if is_async then "True" else "False") ++ "-" ++ database_name

namespace EngineFactory

/-- `EngineFactory.get_engine(database_type, database_url, database_name,
is_async)`: return the cached engine for the key when present; otherwise
look the type up in the strategy map (ValueError when unsupported, before
anything is created or cached), create a fresh engine, cache it under the
key, and return it. -/
def get_engine (t : DatabaseType) (url : String) (name : Option String)
    (is_async : Bool) (st : FactoryState) : Except PyErr (Engine × FactoryState) :=
  let key := engineKey t url name is_async
  match st.engine_instances.lookup key with
  | some e => .ok (e, st)
  | none =>
    match _engine_strategy_map is_async t with
    | none => .error (.valueError
        ("Database type " ++ t.toStr ++ " not supported for "
          ++ (if is_async then "async" else "sync") ++ " engines"))
    | some kind =>
      let e : Engine := ⟨st.nextSerial, kind, url⟩
      .ok (e, ⟨st.engine_instances ++ [(key, e)], st.nextSerial + 1⟩)

end EngineFactory

/-- Whether an `Except` result is a success. -/
def isOkB {ε α : Type} : Except ε α → Bool
  | .ok _ => true
  | .error _ => false

/-- Whether a field path resolves to a column without raising. -/
def resolvesOk (mn : String) (attrs : List (String × Attr)) (f : String) : Bool :=
  match _get_column_and_joins mn attrs f with
  | .ok _ => true
  | .error _ => false

/-- Whether a field path resolves to a column that is not string/text. -/
def resolvesNonText (mn : String) (attrs : List (String × Attr)) (f : String) : Bool :=
  match _get_column_and_joins mn attrs f with
  | .ok (col, _) => !(isTextual col.ty)
  | .error _ => false

/-- A fresh session with no rows and untouched counters. -/
def emptySession : Session := ⟨[], 0, 0, 0, 0, 0⟩

/-- A record with id 7, used against empty storage. -/
def demoUpdateModel : Model := [("id", Value.int 7)]

/-- A decoded JWT payload with a nested claim. -/
def demoPayload : Json :=
  Json.obj [("claims", Json.obj [("email", Json.str "a@b.com")])]

/-- A cached key set holding the single key id "key1". -/
def demoKeys : List (String × String) := [("key1", "material1")]

/-- A record type with only a "name" column. -/
def demoItemAttrs : List (String × Attr) := [("name", Attr.column ColType.stringT)]

/-- Two stored rows of that record type. -/
def demoRow1 : Model := [("id", Value.int 1), ("name", Value.str "a")]

def demoRow2 : Model := [("id", Value.int 2), ("name", Value.str "b")]

def demoItemSession : Session := ⟨[demoRow1, demoRow2], 0, 0, 0, 0, 0⟩

/-- A record type with a relationship `related` (to a type with a text
column `name`) and an own text column `title`. -/
def demoMovieAttrs : List (String × Attr) :=
  [("related", Attr.rel "Related" [("name", Attr.column ColType.stringT)]),
   ("title", Attr.column ColType.stringT)]

/-- The statement built for a search and an ordering that both traverse
the `related` relationship. -/
def demoMovieStmt : Stmt :=
  { modelName := "Movie", filters := [],
    searchConds := [⟨⟨"Related", "name", ColType.stringT⟩, "x"⟩],
    searchJoins := ["Movie.related"], orderJoins := ["Movie.related"],
    orderCriteria := [⟨⟨"Related", "name", ColType.stringT⟩, false⟩] }

/-- A record type with a non-text `count` column and a text `title`. -/
def demoCountAttrs : List (String × Attr) :=
  [("count", Attr.column ColType.intT), ("title", Attr.column ColType.stringT)]

/-- A record type with integer id and text name, and five stored rows. -/
def demoPageAttrs : List (String × Attr) :=
  [("id", Attr.column ColType.intT), ("name", Attr.column ColType.stringT)]

def demoPageRow (n : Int) : Model := [("id", Value.int n), ("name", Value.str "n")]

def demoPageSession : Session :=
  ⟨[demoPageRow 1, demoPageRow 2, demoPageRow 3, demoPageRow 4, demoPageRow 5],
   0, 0, 0, 0, 0⟩

/-- The page returned for skip 2, limit 2 over those five rows. -/
def demoPageResult : PaginatedList :=
  { total := 5, skip := 2, limit := 2, data := [demoPageRow 3, demoPageRow 4],
    next := some 3, previous := some 1 }

/-- An empty engine factory cache. -/
def factoryState0 : FactoryState := ⟨[], 0⟩

/-- The engine created on the first sqlite request. -/
def demoEngine : Engine := ⟨0, EngineKind.sqliteSync, "sqlite:///demo.db"⟩

/-- The factory cache after that first creation. -/
def demoFactory1 : FactoryState :=
  ⟨[(engineKey DatabaseType.SQLITE "sqlite:///demo.db" none false, demoEngine)], 1⟩

/-- `applyJoins` keeps the emitted-join list duplicate-free and inside the
applied set, matching the `if join not in joins_applied` guard. -/
theorem applyJoins_nodup_subset (js : List String) :
    ∀ emitted applied, emitted.Nodup → (∀ x ∈ emitted, x ∈ applied) →
      (applyJoins js emitted applied).1.Nodup ∧
      (∀ x ∈ (applyJoins js emitted applied).1, x ∈ (applyJoins js emitted applied).2) := by
  induction js with
  | nil => intro e a hn hs; exact ⟨hn, hs⟩
  | cons j js ih =>
    intro e a hn hs
    by_cases hj : j ∈ a
    · simp only [applyJoins, if_pos hj]
      exact ih e a hn hs
    · simp only [applyJoins, if_neg hj]
      apply ih
      · refine List.Nodup.append hn (List.nodup_singleton j) ?_
        intro x hx hx'
        simp only [List.mem_singleton] at hx'
        subst hx'
        exact hj (hs x hx)
      · intro x hx
        rcases List.mem_append.mp hx with h1 | h2
        · exact List.mem_append.mpr (Or.inl (hs x h1))
        · exact List.mem_append.mpr (Or.inr h2)

/-- The search block's emitted joins are duplicate-free. -/
theorem searchLoop_joins_nodup (mn : String) (attrs : List (String × Attr))
    (stext : String) :
    ∀ (fs : List String) (conds : List SearchCond) (emitted applied : List String)
      (res : List SearchCond × List String),
      emitted.Nodup → (∀ x ∈ emitted, x ∈ applied) →
      searchLoop mn attrs stext fs conds emitted applied = .ok res →
      res.2.Nodup := by
  intro fs
  induction fs with
  | nil =>
    intro conds e a res hn _ h
    simp only [searchLoop] at h
    cases h
    exact hn
  | cons f fs ih =>
    intro conds e a res hn hs h
    simp only [searchLoop] at h
    cases hr : _get_column_and_joins mn attrs f with
    | error err => rw [hr] at h; exact absurd h (by simp)
    | ok cj =>
      rw [hr] at h
      obtain ⟨col, joins⟩ := cj
      dsimp only at h
      by_cases ht : isTextual col.ty
      · rw [if_pos ht] at h
        have spec := applyJoins_nodup_subset joins e a hn hs
        exact ih _ _ _ _ spec.1 spec.2 h
      · rw [if_neg ht] at h
        exact absurd h (by simp)

/-- The order block's emitted joins are duplicate-free. -/
theorem orderLoop_joins_nodup (mn : String) (attrs : List (String × Attr)) :
    ∀ (fs : List String) (crits : List OrderCriterion) (emitted applied : List String)
      (res : List OrderCriterion × List String),
      emitted.Nodup → (∀ x ∈ emitted, x ∈ applied) →
      orderLoop mn attrs fs crits emitted applied = .ok res →
      res.2.Nodup := by
  intro fs
  induction fs with
  | nil =>
    intro crits e a res hn _ h
    simp only [orderLoop] at h
    cases h
    exact hn
  | cons f fs ih =>
    intro crits e a res hn hs h
    simp only [orderLoop] at h
    cases hr : _get_column_and_joins mn attrs (if pyStartsWith f '-' then pyTail f else f) with
    | error err => rw [hr] at h; exact absurd h (by simp)
    | ok cj =>
      rw [hr] at h
      obtain ⟨col, joins⟩ := cj
      dsimp only at h
      have spec := applyJoins_nodup_subset joins e a hn hs
      exact ih _ _ _ _ spec.1 spec.2 h

/-- After caching a fresh entry at the end, the key looks up to it. -/
theorem lookup_append_single {β : Type} (l : List (String × β)) (k : String) (v : β)
    (h : l.lookup k = none) : (l ++ [(k, v)]).lookup k = some v := by
  induction l with
  | nil => simp [List.lookup]
  | cons a t ih =>
    obtain ⟨a1, a2⟩ := a
    rw [List.lookup] at h
    show List.lookup k ((a1, a2) :: (t ++ [(k, v)])) = some v
    rw [List.lookup]
    cases hk : (k == a1) with
    | true => rw [hk] at h; exact absurd h (by simp)
    | false => rw [hk] at h; exact ih h

/-- When every search field resolves and at least one resolves to a
non-text column, the search block raises a TypeError. -/
theorem searchLoop_typeError_of_nontext (mn : String) (attrs : List (String × Attr))
    (stext : String) :
    ∀ (fs : List String),
      (∀ f ∈ fs, resolvesOk mn attrs f = true) →
      (∃ f ∈ fs, resolvesNonText mn attrs f = true) →
      ∀ conds emitted applied,
        ∃ msg, searchLoop mn attrs stext fs conds emitted applied
          = .error (.typeError msg) := by
  intro fs
  induction fs with
  | nil => intro _ hbad; exact absurd hbad (by simp)
  | cons f fs ih =>
    intro hres hbad conds emitted applied
    have hok := hres f (List.mem_cons_self f fs)
    cases hr : _get_column_and_joins mn attrs f with
    | error err =>
      exfalso
      unfold resolvesOk at hok
      rw [hr] at hok
      exact absurd hok (by simp)
    | ok cj =>
      obtain ⟨col, joins⟩ := cj
      by_cases ht : isTextual col.ty
      · have hbadtail : ∃ g ∈ fs, resolvesNonText mn attrs g = true := by
          obtain ⟨g, hg, hgbad⟩ := hbad
          rcases List.mem_cons.mp hg with rfl | hgtail
          · exfalso
            unfold resolvesNonText at hgbad
            rw [hr] at hgbad
            simp [ht] at hgbad
          · exact ⟨g, hgtail, hgbad⟩
        obtain ⟨msg, hmsg⟩ := ih (fun g hg => hres g (List.mem_cons_of_mem f hg))
          hbadtail (conds ++ [⟨col, stext⟩])
          (applyJoins joins emitted applied).1 (applyJoins joins emitted applied).2
        refine ⟨msg, ?_⟩
        simp only [searchLoop]
        rw [hr]
        dsimp only
        rw [if_pos ht]
        exact hmsg
      · refine ⟨"Field '" ++ f ++ "' is not a string or text column", ?_⟩
        simp only [searchLoop]
        rw [hr]
        dsimp only
        rw [if_neg ht]

/-- Statement construction itself fails with a TypeError for a non-empty
search over fields that include a non-text column. -/
theorem build_stmt_typeError (mn : String) (attrs : List (String × Attr))
    (qf : List (String × Value)) (ob : Option (List String))
    (sfields : List String) (stext : String)
    (hne : sfields ≠ []) (htext : stext ≠ "")
    (hres : ∀ f ∈ sfields, resolvesOk mn attrs f = true)
    (hbad : ∃ f ∈ sfields, resolvesNonText mn attrs f = true) :
    ∃ msg, _build_base_paginated_get_stmt mn attrs qf ob (some sfields) (some stext)
      = .error (.typeError msg) := by
  obtain ⟨msg, hmsg⟩ :=
    searchLoop_typeError_of_nontext mn attrs stext sfields hres hbad [] [] []
  refine ⟨msg, ?_⟩
  unfold _build_base_paginated_get_stmt
  have h1 : truthyStr (some stext) = true := by
    simp only [truthyStr, Bool.not_eq_true']
    exact beq_eq_false_iff_ne.mpr htext
  have h2 : truthyList (some sfields) = true := by
    simp only [truthyList, Bool.not_eq_true']
    cases sfields with
    | nil => exact absurd rfl hne
    | cons a l => rfl
  rw [h1, h2]
  simp only [Bool.and_self, if_true, Option.getD]
  rw [hmsg]

/-- A build error propagates out of `get_paginated` before any statement is
executed: the session comes back untouched. -/
theorem get_paginated_build_error (mn : String) (attrs : List (String × Attr))
    (qf : List (String × Value)) (oskip olimit : Option Int)
    (ob sf : Option (List String)) (stx : Option String) (s : Session) (e : PyErr)
    (hb : _build_base_paginated_get_stmt mn attrs qf ob sf stx = .error e) :
    BaseSqlRepository.get_paginated mn attrs qf oskip olimit ob sf stx s
      = (.error e, s) := by
  unfold BaseSqlRepository.get_paginated
  rw [hb]

/-- Same propagation for the asynchronous variant. -/
theorem get_paginated_async_build_error (mn : String) (attrs : List (String × Attr))
    (qf : List (String × Value)) (oskip olimit : Option Int)
    (ob sf : Option (List String)) (stx : Option String) (s : Session) (e : PyErr)
    (hb : _build_base_paginated_get_stmt mn attrs qf ob sf stx = .error e) :
    BaseSqlRepository.get_paginated_async mn attrs qf oskip olimit ob sf stx s
      = (.error e, s) := by
  unfold BaseSqlRepository.get_paginated_async
  rw [hb]

/-- Shape of a successful `get_paginated` result: the skip and limit fields
and the pagination pair exactly as the source assembles them. -/
theorem get_paginated_ok_fields (mn : String) (attrs : List (String × Attr))
    (qf : List (String × Value)) (oskip olimit : Option Int)
    (ob sf : Option (List String)) (stx : Option String) (s : Session)
    (r : PaginatedList) (s1 : Session)
    (h : BaseSqlRepository.get_paginated mn attrs qf oskip olimit ob sf stx s
          = (.ok r, s1)) :
    r.skip = oskip.getD 0 ∧ r.limit = olimit.getD r.total ∧
    r.next = (_calculate_pagination r.total oskip olimit).1 ∧
    r.previous = (_calculate_pagination r.total oskip olimit).2 := by
  unfold BaseSqlRepository.get_paginated at h
  cases hb : _build_base_paginated_get_stmt mn attrs qf ob sf stx with
  | error e => rw [hb] at h; exact absurd h (by simp)
  | ok stmt =>
    rw [hb] at h
    dsimp only at h
    rw [Prod.mk.injEq] at h
    obtain ⟨h1, -⟩ := h
    rw [Except.ok.injEq] at h1
    subst h1
    exact ⟨rfl, rfl, rfl, rfl⟩

/-- Shape of a successful `get_paginated_async` result. -/
theorem get_paginated_async_ok_fields (mn : String) (attrs : List (String × Attr))
    (qf : List (String × Value)) (oskip olimit : Option Int)
    (ob sf : Option (List String)) (stx : Option String) (s : Session)
    (r : PaginatedList) (s1 : Session)
    (h : BaseSqlRepository.get_paginated_async mn attrs qf oskip olimit ob sf stx s
          = (.ok r, s1)) :
    r.skip = oskip.getD 0 ∧ r.limit = olimit.getD r.total ∧
    r.next = (_calculate_pagination r.total oskip olimit).1 ∧
    r.previous = (_calculate_pagination r.total oskip olimit).2 := by
  unfold BaseSqlRepository.get_paginated_async at h
  cases hb : _build_base_paginated_get_stmt mn attrs qf ob sf stx with
  | error e => rw [hb] at h; exact absurd h (by simp)
  | ok stmt =>
    rw [hb] at h
    dsimp only at h
    rw [Prod.mk.injEq] at h
    obtain ⟨h1, -⟩ := h
    rw [Except.ok.injEq] at h1
    subst h1
    exact ⟨rfl, rfl, rfl, rfl⟩

/-- C1: for every total, skip, and limit, the paginated result returned by
get_paginated and get_paginated_async satisfies: next = floor((skip+limit)/limit) + 1
if skip+limit < total, else none; previous = max(floor((skip-limit)/limit) + 1, 1)
if skip > 0, else none; and when limit is none, next and previous are both none
and the result's limit field reports total (with the result's skip field 0 when
skip is none). Limit 0 is excluded: there Python raises ZeroDivisionError. -/
theorem get_paginated_pagination_arithmetic
    (mn : String) (attrs : List (String × Attr)) (qf : List (String × Value))
    (oskip olimit : Option Int) (ob sf : Option (List String)) (stx : Option String)
    (s : Session) (r ra : PaginatedList) (s1 s2 : Session)
    (hrun : BaseSqlRepository.get_paginated mn attrs qf oskip olimit ob sf stx s
            = (.ok r, s1))
    (hruna : BaseSqlRepository.get_paginated_async mn attrs qf oskip olimit ob sf stx s
            = (.ok ra, s2))
    (hl : ∀ l, olimit = some l → l ≠ 0) :
    ((∀ l, olimit = some l →
        r.next = (if oskip.getD 0 + l < r.total
                  then some (Int.fdiv (oskip.getD 0 + l) l + 1) else none) ∧
        r.previous = (if 0 < oskip.getD 0
                  then some (max (Int.fdiv (oskip.getD 0 - l) l + 1) 1) else none)) ∧
     (olimit = none →
        r.next = none ∧ r.previous = none ∧ r.limit = r.total ∧
        (oskip = none → r.skip = 0))) ∧
    ((∀ l, olimit = some l →
        ra.next = (if oskip.getD 0 + l < ra.total
                  then some (Int.fdiv (oskip.getD 0 + l) l + 1) else none) ∧
        ra.previous = (if 0 < oskip.getD 0
                  then some (max (Int.fdiv (oskip.getD 0 - l) l + 1) 1) else none)) ∧
     (olimit = none →
        ra.next = none ∧ ra.previous = none ∧ ra.limit = ra.total ∧
        (oskip = none → ra.skip = 0))) := by
  obtain ⟨hskip, hlim, hnext, hprev⟩ :=
    get_paginated_ok_fields mn attrs qf oskip olimit ob sf stx s r s1 hrun
  obtain ⟨hskipa, hlima, hnexta, hpreva⟩ :=
    get_paginated_async_ok_fields mn attrs qf oskip olimit ob sf stx s ra s2 hruna
  constructor
  · constructor
    · intro l hle
      subst hle
      exact ⟨by rw [hnext]; rfl, by rw [hprev]; rfl⟩
    · intro hnone
      subst hnone
      exact ⟨by rw [hnext]; rfl, by rw [hprev]; rfl, by rw [hlim]; rfl,
             fun hs0 => by rw [hskip, hs0]; rfl⟩
  · constructor
    · intro l hle
      subst hle
      exact ⟨by rw [hnexta]; rfl, by rw [hpreva]; rfl⟩
    · intro hnone
      subst hnone
      exact ⟨by rw [hnexta]; rfl, by rw [hpreva]; rfl, by rw [hlima]; rfl,
             fun hs0 => by rw [hskipa, hs0]; rfl⟩

/-- Witness for C1: five stored rows, skip 2, limit 2 — both variants
return total 5, the third and fourth rows, next page 3, previous page 1. -/
theorem get_paginated_pagination_arithmetic_witness :
    (BaseSqlRepository.get_paginated "Item" demoPageAttrs [] (some 2) (some 2)
        none none none demoPageSession
      = (.ok demoPageResult, (demoPageSession.exec).exec)) ∧
    (BaseSqlRepository.get_paginated_async "Item" demoPageAttrs [] (some 2) (some 2)
        none none none demoPageSession
      = (.ok demoPageResult, (demoPageSession.exec).exec)) ∧
    demoPageResult.next = some 3 ∧ demoPageResult.previous = some 1 := by
  refine ⟨rfl, rfl, ?_, ?_⟩
  · exact ((get_paginated_pagination_arithmetic "Item" demoPageAttrs [] (some 2)
      (some 2) none none none demoPageSession demoPageResult demoPageResult
      ((demoPageSession.exec).exec) ((demoPageSession.exec).exec) rfl rfl
      (fun l hle => by cases hle; decide)).1.1 2 rfl).1.trans (by decide)
  · exact ((get_paginated_pagination_arithmetic "Item" demoPageAttrs [] (some 2)
      (some 2) none none none demoPageSession demoPageResult demoPageResult
      ((demoPageSession.exec).exec) ((demoPageSession.exec).exec) rfl rfl
      (fun l hle => by cases hle; decide)).1.1 2 rfl).2.trans (by decide)

/-- C5: for every search over field paths that all resolve, with at least
one terminal column not string/text-typed and a non-empty search text,
get_paginated and get_paginated_async raise a TypeError during statement
construction, before any query executes (the session is untouched). -/
theorem search_non_text_column_raises_type_error
    (mn : String) (attrs : List (String × Attr)) (qf : List (String × Value))
    (oskip olimit : Option Int) (ob : Option (List String))
    (sfields : List String) (stext : String) (s : Session)
    (hne : sfields ≠ []) (htext : stext ≠ "")
    (hres : ∀ f ∈ sfields, resolvesOk mn attrs f = true)
    (hbad : ∃ f ∈ sfields, resolvesNonText mn attrs f = true) :
    ∃ msg,
      BaseSqlRepository.get_paginated mn attrs qf oskip olimit ob
          (some sfields) (some stext) s = (.error (.typeError msg), s) ∧
      BaseSqlRepository.get_paginated_async mn attrs qf oskip olimit ob
          (some sfields) (some stext) s = (.error (.typeError msg), s) := by
  obtain ⟨msg, hmsg⟩ := build_stmt_typeError mn attrs qf ob sfields stext hne htext hres hbad
  exact ⟨msg,
    get_paginated_build_error mn attrs qf oskip olimit ob (some sfields)
      (some stext) s _ hmsg,
    get_paginated_async_build_error mn attrs qf oskip olimit ob (some sfields)
      (some stext) s _ hmsg⟩

/-- Witness for C5: searching the integer column `count` with text "x"
fails with a TypeError and leaves the session untouched. -/
theorem search_non_text_column_raises_type_error_witness :
    (["count"] ≠ ([] : List String)) ∧ ("x" ≠ "") ∧
    (∀ f ∈ ["count"], resolvesOk "Item" demoCountAttrs f = true) ∧
    (∃ f ∈ ["count"], resolvesNonText "Item" demoCountAttrs f = true) ∧
    (∃ msg,
      BaseSqlRepository.get_paginated "Item" demoCountAttrs [] none none none
          (some ["count"]) (some "x") emptySession
        = (.error (.typeError msg), emptySession) ∧
      BaseSqlRepository.get_paginated_async "Item" demoCountAttrs [] none none none
          (some ["count"]) (some "x") emptySession
        = (.error (.typeError msg), emptySession)) :=
  ⟨by decide, by decide, by decide, by decide,
   search_non_text_column_raises_type_error "Item" demoCountAttrs [] none none
     none ["count"] "x" emptySession (by decide) (by decide) (by decide) (by decide)⟩

/-- C4 (amended): within the search block and within the order block the
required relationship joins are each applied at most once (each block
de-duplicates through its own joins_applied set); the original claim that a
join is applied at most once to the whole query fails when a relationship
is referenced by both a search path and an order path, because the order
block re-initialises joins_applied. -/
theorem joins_deduplicated_within_each_block
    (mn : String) (attrs : List (String × Attr)) (qf : List (String × Value))
    (ob sf : Option (List String)) (stx : Option String) (stmt : Stmt)
    (h : _build_base_paginated_get_stmt mn attrs qf ob sf stx = .ok stmt) :
    stmt.searchJoins.Nodup ∧ stmt.orderJoins.Nodup := by
  unfold _build_base_paginated_get_stmt at h
  have sstep : ∀ (sres : Except PyErr (List SearchCond × List String)),
      (if (truthyStr stx && truthyList sf) = true then
        searchLoop mn attrs (stx.getD "") (sf.getD []) [] [] []
       else Except.ok ([], [])) = sres →
      ∀ res, sres = .ok res → res.2.Nodup := by
    intro sres hsres res hok
    subst hsres
    by_cases hc : (truthyStr stx && truthyList sf) = true
    · rw [if_pos hc] at hok
      exact searchLoop_joins_nodup mn attrs (stx.getD "") (sf.getD []) [] [] []
        res List.nodup_nil (by simp) hok
    · rw [if_neg hc] at hok
      rw [Except.ok.injEq] at hok
      rw [← hok]
      exact List.nodup_nil
  have ostep : ∀ (ores : Except PyErr (List OrderCriterion × List String)),
      (if truthyList ob = true then orderLoop mn attrs (ob.getD []) [] [] []
       else Except.ok ([], [])) = ores →
      ∀ res, ores = .ok res → res.2.Nodup := by
    intro ores hores res hok
    subst hores
    by_cases hc : truthyList ob = true
    · rw [if_pos hc] at hok
      exact orderLoop_joins_nodup mn attrs (ob.getD []) [] [] []
        res List.nodup_nil (by simp) hok
    · rw [if_neg hc] at hok
      rw [Except.ok.injEq] at hok
      rw [← hok]
      exact List.nodup_nil
  cases hs : (if (truthyStr stx && truthyList sf) = true then
        searchLoop mn attrs (stx.getD "") (sf.getD []) [] [] []
       else Except.ok ([], [])) with
  | error e => rw [hs] at h; exact absurd h (by simp)
  | ok sres =>
    rw [hs] at h
    obtain ⟨conds, sjoins⟩ := sres
    dsimp only at h
    cases ho : (if truthyList ob = true then orderLoop mn attrs (ob.getD []) [] [] []
       else Except.ok ([], [])) with
    | error e => rw [ho] at h; exact absurd h (by simp)
    | ok ores =>
      rw [ho] at h
      obtain ⟨crits, ojoins⟩ := ores
      dsimp only at h
      rw [Except.ok.injEq] at h
      subst h
      exact ⟨sstep _ hs (conds, sjoins) rfl, ostep _ ho (crits, ojoins) rfl⟩

/-- Witness for C4: searching and ordering both through `related.name`
builds successfully, and each block's join list is duplicate-free. -/
theorem joins_deduplicated_within_each_block_witness :
    (_build_base_paginated_get_stmt "Movie" demoMovieAttrs []
        (some ["related.name"]) (some ["related.name"]) (some "x")
      = .ok demoMovieStmt) ∧
    demoMovieStmt.searchJoins.Nodup ∧ demoMovieStmt.orderJoins.Nodup :=
  ⟨rfl, joins_deduplicated_within_each_block "Movie" demoMovieAttrs []
    (some ["related.name"]) (some ["related.name"]) (some "x") demoMovieStmt rfl⟩

/-- Counterexample for C4 as stated: with the same relationship referenced
by a search path and an order path, the statement's full join application
sequence contains `Movie.related` twice — the join is not applied at most
once to the query. -/
theorem join_applied_twice_across_blocks_counterexample :
    Except.map (fun st => st.searchJoins ++ st.orderJoins)
        (_build_base_paginated_get_stmt "Movie" demoMovieAttrs []
          (some ["related.name"]) (some ["related.name"]) (some "x"))
      = .ok ["Movie.related", "Movie.related"] ∧
    ¬ (["Movie.related", "Movie.related"] : List String).Nodup :=
  ⟨rfl, by decide⟩

/-- C3 (amended): a filter key that names no attribute of the record type
is silently ignored, not rejected: every read operation behaves exactly as
with the filter restricted to existing attributes, and get / get_async
succeed for every filter mapping (the hasattr guard skips unknown keys
instead of raising a validation error). -/
theorem unknown_filter_keys_silently_ignored
    (mn : String) (attrs : List (String × Attr)) (qf : List (String × Value))
    (skip limit : Int) (oskip olimit : Option Int) (ob sf : Option (List String))
    (stx : Option String) (s : Session) :
    BaseSqlRepository.get attrs qf skip limit s
      = BaseSqlRepository.get attrs (qf.filter (fun kv => hasattrB attrs kv.1))
          skip limit s ∧
    isOkB (BaseSqlRepository.get attrs qf skip limit s).1 = true ∧
    BaseSqlRepository.get_async attrs qf skip limit s
      = BaseSqlRepository.get_async attrs (qf.filter (fun kv => hasattrB attrs kv.1))
          skip limit s ∧
    isOkB (BaseSqlRepository.get_async attrs qf skip limit s).1 = true ∧
    BaseSqlRepository.get_paginated mn attrs qf oskip olimit ob sf stx s
      = BaseSqlRepository.get_paginated mn attrs
          (qf.filter (fun kv => hasattrB attrs kv.1)) oskip olimit ob sf stx s ∧
    BaseSqlRepository.get_paginated_async mn attrs qf oskip olimit ob sf stx s
      = BaseSqlRepository.get_paginated_async mn attrs
          (qf.filter (fun kv => hasattrB attrs kv.1)) oskip olimit ob sf stx s := by
  have hg : (qf.filter (fun kv => hasattrB attrs kv.1)).filter
      (fun kv => hasattrB attrs kv.1) = qf.filter (fun kv => hasattrB attrs kv.1) := by
    rw [List.filter_filter]
    simp
  refine ⟨?_, rfl, ?_, rfl, ?_, ?_⟩
  · simp only [BaseSqlRepository.get]
    rw [hg]
  · simp only [BaseSqlRepository.get_async]
    rw [hg]
  · simp only [BaseSqlRepository.get_paginated, _build_base_paginated_get_stmt]
    rw [hg]
  · simp only [BaseSqlRepository.get_paginated_async, _build_base_paginated_get_stmt]
    rw [hg]

/-- Counterexample for C3 as stated: filtering on the unknown key `bogus`
does not fail — get returns every row successfully (the condition is
dropped), and get_paginated likewise succeeds. -/
theorem unknown_filter_key_no_error_counterexample :
    BaseSqlRepository.get demoItemAttrs [("bogus", Value.str "x")] 0 100
        demoItemSession
      = (.ok [demoRow1, demoRow2], demoItemSession.exec) ∧
    (BaseSqlRepository.get_paginated "Item" demoItemAttrs
        [("bogus", Value.str "x")] none none none none none demoItemSession).1
      = .ok { total := 2, skip := 0, limit := 2, data := [demoRow1, demoRow2],
              next := none, previous := none } :=
  ⟨rfl, rfl⟩

/-- C2: the synchronous update on a record whose id is set but absent from
storage does not raise the documented ValueError "not found": it passes the
raw id into exists, whose `filter_by(**query_filter)` unpack raises a
TypeError first — before any add, flush, commit, or even statement
execution (the session is returned untouched). The asynchronous variant,
which passes the mapping, does raise the documented ValueError. -/
theorem update_missing_model_type_error_eval :
    BaseSqlRepository.update "Item" demoUpdateModel false emptySession
      = (.error (.typeError
          "filter_by() argument after ** must be a mapping, not 7"), emptySession) ∧
    BaseSqlRepository.update_async "Item" demoUpdateModel false emptySession
      = (.error (.valueError "Model of type Item with id: 7 not found"),
         emptySession.exec) :=
  ⟨rfl, rfl⟩

/-- C6: get_claim_from_payload returns the value reached by a matching
dotted path, but on the empty payload with path "claims.email" it raises
IndexError (`matches[0]` on an empty match list) instead of returning
none as the spec and the repository's own test expect. -/
theorem get_claim_from_payload_eval :
    get_claim_from_payload demoPayload "claims.email" = .ok (Json.str "a@b.com") ∧
    get_claim_from_payload (Json.obj []) "claims.email" = .error PyErr.indexError :=
  ⟨rfl, rfl⟩

/-- C7: a token whose well-formed header carries a kid absent from the
cached key set surfaces as HTTP 500 "Error processing token." — the
function's own 403 is caught by its blanket `except Exception` clause — while
a malformed header does surface as the 403 client error. -/
theorem get_public_key_missing_kid_eval :
    get_public_key (TokenHeader.withKid (some "absent")) demoKeys
      = .error (AuthExc.httpException 500 "Error processing token.") ∧
    get_public_key (TokenHeader.withKid none) demoKeys
      = .error (AuthExc.httpException 500 "Error processing token.") ∧
    get_public_key TokenHeader.malformed demoKeys
      = .error (AuthExc.httpException 403 "Invalid token headers.") ∧
    get_public_key (TokenHeader.withKid (some "key1")) demoKeys = .ok "material1" :=
  ⟨rfl, rfl, rfl, rfl⟩

/-- C8 (amended): every method the Manager defines is a pure pass-through
to the repository — get_by_id, get_models_by_ids, get, get_paginated,
create, update, delete and their asynchronous variants — but exists and
exists_async have no Manager counterpart: the Manager does not re-expose
every repository operation. -/
theorem manager_delegates_all_but_exists :
    (∀ m : BaseManager,
      BaseManager.get_by_id m = m._repository.get_by_id ∧
      BaseManager.get_by_id_async m = m._repository.get_by_id_async ∧
      BaseManager.create m = m._repository.create ∧
      BaseManager.create_async m = m._repository.create_async ∧
      BaseManager.update m = m._repository.update ∧
      BaseManager.update_async m = m._repository.update_async ∧
      BaseManager.delete m = m._repository.delete ∧
      BaseManager.delete_async m = m._repository.delete_async ∧
      BaseManager.get m = m._repository.get ∧
      BaseManager.get_async m = m._repository.get_async ∧
      BaseManager.get_models_by_ids m = m._repository.get_models_by_ids ∧
      BaseManager.get_models_by_ids_async m = m._repository.get_models_by_ids_async ∧
      BaseManager.get_paginated m = m._repository.get_paginated ∧
      BaseManager.get_paginated_async m = m._repository.get_paginated_async) ∧
    (∀ n ∈ baseSqlRepositoryMethodNames,
      n ∈ baseManagerMethodNames ∨ n = "exists" ∨ n = "exists_async") :=
  ⟨fun _ => ⟨rfl, rfl, rfl, rfl, rfl, rfl, rfl, rfl, rfl, rfl, rfl, rfl, rfl, rfl⟩,
   by decide⟩

/-- Counterexample for C8 as stated: exists is a repository operation, yet
the Manager defines no method of that name (nor exists_async). -/
theorem manager_lacks_exists_counterexample :
    "exists" ∈ baseSqlRepositoryMethodNames ∧
    "exists" ∉ baseManagerMethodNames ∧
    "exists_async" ∈ baseSqlRepositoryMethodNames ∧
    "exists_async" ∉ baseManagerMethodNames := by
  decide

/-- C9: deleting an id that names no record raises no error, removes
nothing, and still performs exactly the commit when defer_commit is false
(the session differs only by the lookup execution and that commit); for an
id that does name a record, that record is removed — in both the
synchronous and asynchronous variants. -/
theorem delete_by_id_semantics (id : Value) (defer_commit : Bool) (s : Session) :
    ((∀ r ∈ s.rows, getattrV r "id" ≠ id) →
       BaseSqlRepository.delete id defer_commit s
         = (.ok (), if defer_commit then s.exec else (s.exec).commit) ∧
       BaseSqlRepository.delete_async id defer_commit s
         = (.ok (), if defer_commit then s.exec else (s.exec).commit)) ∧
    ((∃ r ∈ s.rows, getattrV r "id" = id) →
       (BaseSqlRepository.delete id defer_commit s).2.rows
         = s.rows.eraseP (fun r => getattrV r "id" == id) ∧
       (BaseSqlRepository.delete id defer_commit s).2.rows.length + 1
         = s.rows.length ∧
       (BaseSqlRepository.delete id defer_commit s).1 = .ok () ∧
       (BaseSqlRepository.delete_async id defer_commit s).2.rows
         = s.rows.eraseP (fun r => getattrV r "id" == id)) := by
  constructor
  · intro hno
    have hfind : List.find? (fun r => getattrV r "id" == id) (Session.exec s).rows
        = none := by
      apply List.find?_eq_none.mpr
      intro x hx
      simpa using hno x hx
    constructor
    · simp only [BaseSqlRepository.delete]
      rw [hfind]
    · simp only [BaseSqlRepository.delete_async]
      rw [hfind]
  · intro hyes
    obtain ⟨r0, hr0, hpr0⟩ := hyes
    have hpb : (fun r => getattrV r "id" == id) r0 = true := by simpa using hpr0
    have hfound : (List.find? (fun r => getattrV r "id" == id)
        (Session.exec s).rows).isSome := by
      rw [List.find?_isSome]
      exact ⟨r0, hr0, hpb⟩
    obtain ⟨m, hm⟩ := Option.isSome_iff_exists.mp hfound
    refine ⟨?_, ?_, ?_, ?_⟩
    · simp only [BaseSqlRepository.delete]
      rw [hm]
      cases defer_commit <;> rfl
    · have hlen : (s.rows.eraseP (fun r => getattrV r "id" == id)).length + 1
          = s.rows.length := List.length_eraseP_add_one hr0 hpb
      have hrows : (BaseSqlRepository.delete id defer_commit s).2.rows
          = s.rows.eraseP (fun r => getattrV r "id" == id) := by
        simp only [BaseSqlRepository.delete]
        rw [hm]
        cases defer_commit <;> rfl
      rw [hrows]
      exact hlen
    · simp only [BaseSqlRepository.delete]
    · simp only [BaseSqlRepository.delete_async]
      rw [hm]
      cases defer_commit <;> rfl

/-- Witness for C9: deleting id 9 (absent) from the two-row session is a
no-op that commits; deleting id 1 (present) removes the first row. -/
theorem delete_by_id_semantics_witness :
    (∀ r ∈ demoItemSession.rows, getattrV r "id" ≠ Value.int 9) ∧
    (BaseSqlRepository.delete (Value.int 9) false demoItemSession
      = (.ok (), ((demoItemSession.exec)).commit)) ∧
    (∃ r ∈ demoItemSession.rows, getattrV r "id" = Value.int 1) ∧
    (BaseSqlRepository.delete (Value.int 1) false demoItemSession).2.rows
      = [demoRow2] := by
  refine ⟨by decide, ?_, by decide, ?_⟩
  · exact ((delete_by_id_semantics (Value.int 9) false demoItemSession).1
      (by decide)).1
  · exact ((delete_by_id_semantics (Value.int 1) false demoItemSession).2
      (by decide)).1.trans (by decide)

/-- C10: EngineFactory.get_engine is idempotent per key — a second call
with the same database type, URL, optional name, and mode returns the
identical engine instance and leaves the cache unchanged (no second engine
is created) — and every database type is supported in both modes, so the
unsupported-type ValueError branch (which would fire before any engine is
created or cached) is unreachable. -/
theorem engine_factory_get_engine_idempotent
    (t : DatabaseType) (url : String) (name : Option String) (is_async : Bool)
    (st st' : FactoryState) (e : Engine)
    (h : EngineFactory.get_engine t url name is_async st = .ok (e, st')) :
    EngineFactory.get_engine t url name is_async st' = .ok (e, st') ∧
    ∀ (b : Bool) (ty : DatabaseType), (_engine_strategy_map b ty).isSome = true := by
  constructor
  · simp only [EngineFactory.get_engine] at h ⊢
    cases hk : st.engine_instances.lookup (engineKey t url name is_async) with
    | some e0 =>
      rw [hk] at h
      rw [Except.ok.injEq, Prod.mk.injEq] at h
      obtain ⟨he, hst⟩ := h
      subst he
      subst hst
      rw [hk]
    | none =>
      rw [hk] at h
      cases hm : _engine_strategy_map is_async t with
      | none => rw [hm] at h; exact absurd h (by simp)
      | some kind =>
        rw [hm] at h
        dsimp only at h
        rw [Except.ok.injEq, Prod.mk.injEq] at h
        obtain ⟨he, hst⟩ := h
        subst he
        subst hst
        have hlk := lookup_append_single st.engine_instances
          (engineKey t url name is_async) (⟨st.nextSerial, kind, url⟩ : Engine) hk
        rw [hlk]
  · intro b ty
    cases b <;> cases ty <;> rfl

/-- Witness for C10: a first sqlite request against an empty cache creates
engine 0; repeating the request returns that same engine and cache. -/
theorem engine_factory_get_engine_idempotent_witness :
    (EngineFactory.get_engine DatabaseType.SQLITE "sqlite:///demo.db" none false
        factoryState0 = .ok (demoEngine, demoFactory1)) ∧
    (EngineFactory.get_engine DatabaseType.SQLITE "sqlite:///demo.db" none false
        demoFactory1 = .ok (demoEngine, demoFactory1)) :=
  ⟨rfl, (engine_factory_get_engine_idempotent DatabaseType.SQLITE
    "sqlite:///demo.db" none false factoryState0 demoFactory1 demoEngine rfl).1⟩
